import Mathlib

/-!
Verification of the AquaSafe Pro water-quality app (src/app.py).

The app collects five numeric readings through bounded slider controls,
feeds them to a pre-trained pipeline (predict and predict_proba), and
renders a verdict panel plus a per-parameter status / health-impact table
computed from fixed threshold rules.  Slider decimals are embedded as
rationals; the pipeline is an opaque pair of functions; the if/elif chains
of the `param_eval` dictionary are transcribed branch for branch.
-/

namespace AquaSafe

/-- The three qualitative tiers of the status table: a ✅ status, a ⚠️
status, or a ❌ status. -/
inductive Tier where
  | optimal
  | caution
  | dangerous
deriving DecidableEq, Repr

/-- One submitted set of the five water-quality readings, assembled from
the form controls of src/app.py lines 72-89. -/
structure WaterSample where
  ph : ℚ
  temperature : ℚ
  turbidity : ℚ
  dissolvedOxygen : ℚ
  conductivity : ℚ
deriving DecidableEq, Repr

/-- Status entry for the pH row (src/app.py lines 140-143):
`'✅ Optimal' if 6.5 <= ph <= 8.5 else '⚠️ Alkaline' if ph > 8.5 else
'⚠️ Acidic' if ph >= 4.5 else '❌ Dangerous'`. -/
def phStatus (ph : ℚ) : String :=
  if 6.5 ≤ ph ∧ ph ≤ 8.5 then "✅ Optimal"
  else if ph > 8.5 then "⚠️ Alkaline"
  else if ph ≥ 4.5 then "⚠️ Acidic"
  else "❌ Dangerous"

/-- Status entry for the Temperature row (src/app.py lines 145-147). -/
def temperatureStatus (t : ℚ) : String :=
  if t < 30 then "✅ Normal"
  else if t < 40 then "⚠️ Elevated"
  else "❌ Extreme"

/-- Status entry for the Turbidity row (src/app.py lines 149-151). -/
def turbidityStatus (tb : ℚ) : String :=
  if tb < 5 then "✅ Clear"
  else if tb < 20 then "⚠️ Cloudy"
  else "❌ Very Turbid"

/-- Status entry for the Dissolved Oxygen row (src/app.py lines 153-155). -/
def dissolvedOxygenStatus (dox : ℚ) : String :=
  if dox ≥ 6 then "✅ Healthy"
  else if dox ≥ 3 then "⚠️ Low"
  else "❌ Hypoxic"

/-- Status entry for the Conductivity row (src/app.py lines 157-159). -/
def conductivityStatus (c : ℚ) : String :=
  if c < 1000 then "✅ Normal"
  else if c < 1500 then "⚠️ High"
  else "❌ Very High"

/-- Health Impact entry for the pH row (src/app.py lines 162-164):
`'Ideal for drinking' if 6.5 <= ph <= 8.5 else 'May cause irritation' if
8.5 < ph <= 9.5 or 5.5 <= ph < 6.5 else 'Harmful to health'`. -/
def phImpact (ph : ℚ) : String :=
  if 6.5 ≤ ph ∧ ph ≤ 8.5 then "Ideal for drinking"
  else if (8.5 < ph ∧ ph ≤ 9.5) ∨ (5.5 ≤ ph ∧ ph < 6.5) then "May cause irritation"
  else "Harmful to health"

/-- Health Impact entry for the Temperature row (src/app.py lines 166-168). -/
def temperatureImpact (t : ℚ) : String :=
  if t < 30 then "No direct impact"
  else if t < 40 then "Affects taste"
  else "Risk of scalding"

/-- Health Impact entry for the Turbidity row (src/app.py lines 170-172). -/
def turbidityImpact (tb : ℚ) : String :=
  if tb < 5 then "Clear and safe"
  else if tb < 20 then "May harbor pathogens"
  else "High pathogen risk"

/-- Health Impact entry for the Dissolved Oxygen row (src/app.py lines 174-176). -/
def dissolvedOxygenImpact (dox : ℚ) : String :=
  if dox ≥ 6 then "Supports aquatic life"
  else if dox ≥ 3 then "Stressful for organisms"
  else "Dangerously low oxygen"

/-- Health Impact entry for the Conductivity row (src/app.py lines 178-180). -/
def conductivityImpact (c : ℚ) : String :=
  if c < 1000 then "Normal mineral content"
  else if c < 1500 then "Elevated minerals"
  else "Very high contamination risk"

/-- Tier of a status string: the source marks optimal statuses with ✅,
caution statuses with ⚠️ and dangerous statuses with ❌ (src/app.py lines
139-160); the strings listed here are exactly the ones the source can
produce. -/
def tierOf (s : String) : Tier :=
  if s = "✅ Optimal" ∨ s = "✅ Normal" ∨ s = "✅ Clear" ∨ s = "✅ Healthy" then
    Tier.optimal
  else if s = "⚠️ Alkaline" ∨ s = "⚠️ Acidic" ∨ s = "⚠️ Elevated" ∨
      s = "⚠️ Cloudy" ∨ s = "⚠️ Low" ∨ s = "⚠️ High" then
    Tier.caution
  else
    Tier.dangerous

/-- The `param_eval` table of src/app.py lines 134-182: the Parameter,
Safe Range, Status and Health Impact columns.  The `Your Value` column is
the five readings formatted for display (pure string interpolation of the
sample's fields) and carries no computation, so it is not modelled. -/
structure ParamEval where
  parameters : List String
  safeRanges : List String
  statuses : List String
  impacts : List String
deriving DecidableEq, Repr

/-- Builds the detailed parameter-analysis table (src/app.py lines 134-182). -/
def paramEval (s : WaterSample) : ParamEval :=
  { parameters := ["pH", "Temperature", "Turbidity", "Dissolved Oxygen", "Conductivity"]
    safeRanges := ["6.5-8.5", "< 30°C", "< 5 NTU", "≥ 6 mg/L", "< 1000 µS/cm"]
    statuses := [phStatus s.ph, temperatureStatus s.temperature,
      turbidityStatus s.turbidity, dissolvedOxygenStatus s.dissolvedOxygen,
      conductivityStatus s.conductivity]
    impacts := [phImpact s.ph, temperatureImpact s.temperature,
      turbidityImpact s.turbidity, dissolvedOxygenImpact s.dissolvedOxygen,
      conductivityImpact s.conductivity] }

/-- Everything the result section renders for one submission: the verdict
panel (src/app.py lines 108-127), the detail table (lines 130-202) and the
three summary metrics (lines 205-221). -/
structure RenderedPage where
  verdict : String
  shownConfidence : ℚ
  table : ParamEval
  phDelta : String
  doDelta : String
  condDelta : String
deriving DecidableEq, Repr

/-- The Result Renderer: pure function of the sample and the
classification result (src/app.py lines 107-221). -/
def renderResult (s : WaterSample) (prediction : Bool) (confidence : ℚ) :
    RenderedPage :=
  { verdict := if prediction then "✅ Safe for Consumption"
      else "❌ Not Safe for Consumption"
    shownConfidence := confidence
    table := paramEval s
    phDelta := if 6.5 ≤ s.ph ∧ s.ph ≤ 8.5 then "Optimal" else "Caution"
    doDelta := if s.dissolvedOxygen ≥ 6 then "Healthy" else "Low"
    condDelta := if s.conductivity < 1000 then "Normal" else "High" }

/-- The opaque pre-trained pipeline: a predict operation returning the
safety verdict and a predict_proba operation returning the row of class
probabilities (src/app.py lines 103-104). -/
structure Model where
  predict : WaterSample → Bool
  predictProba : WaterSample → List ℚ

/-- Python's built-in `max` on a list: fails on the empty list, otherwise
folds binary max over the elements. -/
def pyMax : List ℚ → Option ℚ
  | [] => none
  | x :: xs => some (xs.foldl max x)

/-- The classification step of src/app.py lines 103-105:
`prediction = pipeline.predict(input_data)[0]`,
`prediction_proba = pipeline.predict_proba(input_data)[0]`,
`confidence = max(prediction_proba) * 100`.  Returns none exactly when
`max` is applied to an empty probability row. -/
def classify (m : Model) (s : WaterSample) : Option (Bool × ℚ) :=
  match pyMax (m.predictProba s) with
  | none => none
  | some p => some (m.predict s, p * 100)

/-- The state of the model artifact file `water_quality_model.pkl` on
disk when the process starts. -/
inductive Artifact where
  | missing
  | corrupt
  | valid (m : Model)

/-- `joblib.load('water_quality_model.pkl')` (src/app.py lines 17-18):
raises FileNotFoundError when the artifact is missing, an unpickling
error when it is corrupt, and otherwise yields the pipeline.  Any raised
error propagates out of the cached resource function, so the script — and
with it every request — dies. -/
def load_pipeline : Artifact → Except String Model
  | Artifact.missing => Except.error "FileNotFoundError"
  | Artifact.corrupt => Except.error "UnpicklingError"
  | Artifact.valid m => Except.ok m

/-- The `@st.cache_resource` wrapper around load_pipeline (src/app.py
lines 16-18).  Takes the cache state; returns the load outcome, the new
cache state, and whether the loader body actually ran. -/
def cacheResource (load : Except String Model) :
    Option Model → Except String Model × Option Model × Bool
  | some m => (Except.ok m, some m, false)
  | none =>
    match load with
    | Except.ok m => (Except.ok m, some m, true)
    | Except.error e => (Except.error e, none, true)

/-- The whole submitted-form branch (src/app.py lines 96-221): classify
the sample with the loaded pipeline, then render the verdict panel, the
detail table and the metrics.  The only way this can fail is classify
failing. -/
def handleSubmission (m : Model) (s : WaterSample) : Option RenderedPage :=
  match classify m s with
  | none => none
  | some (pred, conf) => some (renderResult s pred conf)

/-- A bounded numeric form control: minimum, maximum, default and step
(the positional arguments of `st.slider`). -/
structure Slider where
  minVal : ℚ
  maxVal : ℚ
  defaultVal : ℚ
  stepVal : ℚ
deriving DecidableEq, Repr

/-- `st.slider('pH Level (0-14 scale)', 0.0, 14.0, 7.0, 0.1)` (src/app.py line 72). -/
def phSlider : Slider := ⟨0, 14, 7, 0.1⟩

/-- `st.slider('Temperature (°C)', 0.0, 50.0, 22.0, 0.5)` (src/app.py line 74). -/
def temperatureSlider : Slider := ⟨0, 50, 22, 0.5⟩

/-- `st.slider('Turbidity (NTU)', 0.0, 3.0, 0.01, 0.01)` (src/app.py line 84);
its help text says "0-100 NTU range". -/
def turbiditySlider : Slider := ⟨0, 3, 0.01, 0.01⟩

/-- `st.slider('Dissolved Oxygen (mg/L)', 0.0, 200.0, 8.0, 0.1)` (src/app.py
line 86); its help text says "0-20 mg/L range". -/
def dissolvedOxygenSlider : Slider := ⟨0, 200, 8, 0.1⟩

/-- `st.slider('Conductivity (µS/cm)', 0, 20000, 350, 10)` (src/app.py
line 88); its help text says "0-2000 µS/cm range". -/
def conductivitySlider : Slider := ⟨0, 20000, 350, 10⟩

/-- A value the control can deliver: the slider clamps to its
[minVal, maxVal] interval.  This clamping is the only validation the form
performs. -/
def Slider.allows (c : Slider) (v : ℚ) : Prop :=
  c.minVal ≤ v ∧ v ≤ c.maxVal

instance (c : Slider) (v : ℚ) : Decidable (c.allows v) := by
  unfold Slider.allows; infer_instance

/-- A sample the form can submit: every field within its control's range
(src/app.py lines 72-89). -/
def submittable (s : WaterSample) : Prop :=
  phSlider.allows s.ph ∧ temperatureSlider.allows s.temperature ∧
  turbiditySlider.allows s.turbidity ∧
  dissolvedOxygenSlider.allows s.dissolvedOxygen ∧
  conductivitySlider.allows s.conductivity

instance (s : WaterSample) : Decidable (submittable s) := by
  unfold submittable; infer_instance

/-- Whether a load attempt failed (the script raised before serving). -/
def isError : Except String Model → Bool
  | Except.error _ => true
  | Except.ok _ => false

/-- The safe-water bounds of the spec's data model: pH ∈ [0,14],
temperature ∈ [0,50] °C, turbidity ∈ [0,100] NTU, dissolved oxygen ∈
[0,20] mg/L, conductivity ∈ [0,2000] µS/cm.  This is the spec side of the
refinement question answered below; the code side is `submittable`. -/
def specSampleBounds (s : WaterSample) : Prop :=
  (0 ≤ s.ph ∧ s.ph ≤ 14) ∧
  (0 ≤ s.temperature ∧ s.temperature ≤ 50) ∧
  (0 ≤ s.turbidity ∧ s.turbidity ≤ 100) ∧
  (0 ≤ s.dissolvedOxygen ∧ s.dissolvedOxygen ≤ 20) ∧
  (0 ≤ s.conductivity ∧ s.conductivity ≤ 2000)

instance (s : WaterSample) : Decidable (specSampleBounds s) := by
  unfold specSampleBounds; infer_instance

/-- The starting value is a lower bound of a max-fold over a list. -/
lemma le_foldl_max (xs : List ℚ) (x : ℚ) : x ≤ xs.foldl max x := by
  induction xs generalizing x with
  | nil => exact le_refl x
  | cons a as ih => exact le_trans (le_max_left x a) (ih (max x a))

/-- A max-fold over a list stays below any bound of the start and the
elements. -/
lemma foldl_max_le (xs : List ℚ) (x b : ℚ) (hx : x ≤ b)
    (h : ∀ q ∈ xs, q ≤ b) : xs.foldl max x ≤ b := by
  induction xs generalizing x with
  | nil => exact hx
  | cons a as ih =>
    exact ih (max x a) (max_le hx (h a (List.mem_cons_self a as)))
      (fun q hq => h q (List.mem_cons_of_mem a hq))

/-- C1, counterexample: at pH = 10 the claim predicts the dangerous tier
(10 > 9.5), but the source's elif chain yields '⚠️ Alkaline', a caution
tier, because the ph > 8.5 test comes before any lower bound check. -/
theorem pH_ten_is_caution_not_dangerous :
    phStatus 10 = "⚠️ Alkaline" ∧ tierOf (phStatus 10) = Tier.caution ∧
    tierOf (phStatus 10) ≠ Tier.dangerous := by
  have h : phStatus 10 = "⚠️ Alkaline" := by norm_num [phStatus]
  refine ⟨h, ?_, ?_⟩ <;> rw [h] <;> simp [tierOf]

/-- C1, amended: the pH row's status is the optimal tier for pH in
[6.5, 8.5], a caution tier for pH in [4.5, 6.5) or pH > 8.5 (with no
upper cut-off at 9.5), and the dangerous tier exactly when pH < 4.5. -/
theorem pH_status_tier_characterization (ph : ℚ) :
    tierOf (phStatus ph) =
      if 6.5 ≤ ph ∧ ph ≤ 8.5 then Tier.optimal
      else if (4.5 ≤ ph ∧ ph < 6.5) ∨ 8.5 < ph then Tier.caution
      else Tier.dangerous := by
  simp only [phStatus]
  split_ifs with h1 h2 h3 h4 h5 h6
  · simp [tierOf]
  · simp [tierOf]
  · exact absurd (Or.inr h2) h3
  · simp [tierOf]
  · push_neg at h1 h2
    have hlt : ph < 6.5 := by
      by_contra hc
      push_neg at hc
      exact absurd (h1 hc) (by linarith)
    exact absurd (Or.inl ⟨h4, hlt⟩) h5
  · exfalso
    rcases h6 with ⟨ha, _⟩ | hb
    · exact absurd ha h4
    · exact absurd hb h2
  · simp [tierOf]

/-- C2: the form's sliders are wider than the documented ranges.  A
sample with dissolved oxygen 200 mg/L passes the controls yet violates
the documented [0, 20] mg/L bound, and one with conductivity
20000 µS/cm passes yet violates the documented [0, 2000] µS/cm bound:
range clamping by the controls does not confine samples to the
documented intervals. -/
theorem slider_bounds_exceed_documented_ranges :
    (submittable ⟨7, 22, 0.01, 200, 350⟩ ∧
      ¬ specSampleBounds ⟨7, 22, 0.01, 200, 350⟩) ∧
    (submittable ⟨7, 22, 0.01, 8, 20000⟩ ∧
      ¬ specSampleBounds ⟨7, 22, 0.01, 8, 20000⟩) := by
  refine ⟨⟨?_, ?_⟩, ⟨?_, ?_⟩⟩ <;>
    norm_num [submittable, Slider.allows, phSlider, temperatureSlider,
      turbiditySlider, dissolvedOxygenSlider, conductivitySlider, specSampleBounds]

/-- C3: for the sample pH 9.0, temperature 35.0, turbidity 10.0,
dissolved oxygen 2.0, conductivity 1600, the detail table shows
caution-tier statuses for pH, temperature and turbidity, and
dangerous-tier statuses for dissolved oxygen and conductivity. -/
theorem caution_dangerous_scenario_statuses :
    (paramEval ⟨9, 35, 10, 2, 1600⟩).statuses =
      ["⚠️ Alkaline", "⚠️ Elevated", "⚠️ Cloudy", "❌ Hypoxic", "❌ Very High"] ∧
    ((paramEval ⟨9, 35, 10, 2, 1600⟩).statuses).map tierOf =
      [Tier.caution, Tier.caution, Tier.caution, Tier.dangerous, Tier.dangerous] := by
  have h : (paramEval ⟨9, 35, 10, 2, 1600⟩).statuses =
      ["⚠️ Alkaline", "⚠️ Elevated", "⚠️ Cloudy", "❌ Hypoxic", "❌ Very High"] := by
    norm_num [paramEval, phStatus, temperatureStatus, turbidityStatus,
      dissolvedOxygenStatus, conductivityStatus]
  exact ⟨h, by rw [h]; simp [tierOf]⟩

/-- C4: the statuses of the four non-pH rows follow the spec's threshold
table — temperature optimal below 30, caution on [30, 40), dangerous at
40 and above; turbidity optimal below 5, caution on [5, 20), dangerous at
20 and above; dissolved oxygen optimal at 6 and above, caution on [3, 6),
dangerous below 3; conductivity optimal below 1000, caution on
[1000, 1500), dangerous at 1500 and above. -/
theorem non_pH_status_tier_table (t tb dox c : ℚ) :
    (tierOf (temperatureStatus t) =
      if t < 30 then Tier.optimal
      else if 30 ≤ t ∧ t < 40 then Tier.caution
      else Tier.dangerous) ∧
    (tierOf (turbidityStatus tb) =
      if tb < 5 then Tier.optimal
      else if 5 ≤ tb ∧ tb < 20 then Tier.caution
      else Tier.dangerous) ∧
    (tierOf (dissolvedOxygenStatus dox) =
      if dox ≥ 6 then Tier.optimal
      else if 3 ≤ dox ∧ dox < 6 then Tier.caution
      else Tier.dangerous) ∧
    (tierOf (conductivityStatus c) =
      if c < 1000 then Tier.optimal
      else if 1000 ≤ c ∧ c < 1500 then Tier.caution
      else Tier.dangerous) := by
  refine ⟨?_, ?_, ?_, ?_⟩
  · simp only [temperatureStatus]
    split_ifs with g1 g2 g3 g4
    · simp [tierOf]
    · simp [tierOf]
    · push_neg at g1
      exact absurd ⟨g1, g2⟩ g3
    · exact absurd g4.2 g2
    · simp [tierOf]
  · simp only [turbidityStatus]
    split_ifs with g1 g2 g3 g4
    · simp [tierOf]
    · simp [tierOf]
    · push_neg at g1
      exact absurd ⟨g1, g2⟩ g3
    · exact absurd g4.2 g2
    · simp [tierOf]
  · simp only [dissolvedOxygenStatus]
    split_ifs with g1 g2 g3 g4
    · simp [tierOf]
    · simp [tierOf]
    · push_neg at g1
      exact absurd ⟨g2, g1⟩ g3
    · exact absurd g4.1 g2
    · simp [tierOf]
  · simp only [conductivityStatus]
    split_ifs with g1 g2 g3 g4
    · simp [tierOf]
    · simp [tierOf]
    · push_neg at g1
      exact absurd ⟨g1, g2⟩ g3
    · exact absurd g4.2 g2
    · simp [tierOf]

/-- C5: for the sample pH 7.0, temperature 22.0, turbidity 0.01,
dissolved oxygen 8.0, conductivity 350, all five statuses are the
optimal tier. -/
theorem all_optimal_scenario_statuses :
    (paramEval ⟨7, 22, 0.01, 8, 350⟩).statuses =
      ["✅ Optimal", "✅ Normal", "✅ Clear", "✅ Healthy", "✅ Normal"] ∧
    ((paramEval ⟨7, 22, 0.01, 8, 350⟩).statuses).map tierOf =
      [Tier.optimal, Tier.optimal, Tier.optimal, Tier.optimal, Tier.optimal] := by
  have h : (paramEval ⟨7, 22, 0.01, 8, 350⟩).statuses =
      ["✅ Optimal", "✅ Normal", "✅ Clear", "✅ Healthy", "✅ Normal"] := by
    norm_num [paramEval, phStatus, temperatureStatus, turbidityStatus,
      dissolvedOxygenStatus, conductivityStatus]
  exact ⟨h, by rw [h]; simp [tierOf]⟩

/-- C6: the classifier adapter returns the verdict together with the
maximum class probability times 100, and when every class probability
lies in [0, 1] that confidence lies in [0, 100]. -/
theorem classify_confidence_bounds (m : Model) (s : WaterSample) (p : ℚ)
    (hmax : pyMax (m.predictProba s) = some p)
    (hrange : ∀ q ∈ m.predictProba s, 0 ≤ q ∧ q ≤ 1) :
    classify m s = some (m.predict s, p * 100) ∧
    0 ≤ p * 100 ∧ p * 100 ≤ 100 := by
  refine ⟨by simp [classify, hmax], ?_, ?_⟩
  · cases hl : m.predictProba s with
    | nil => rw [hl] at hmax; simp [pyMax] at hmax
    | cons x xs =>
      rw [hl] at hmax
      simp only [pyMax, Option.some.injEq] at hmax
      have hx : 0 ≤ x := (hrange x (by rw [hl]; exact List.mem_cons_self x xs)).1
      have hle := le_foldl_max xs x
      rw [hmax] at hle
      linarith
  · cases hl : m.predictProba s with
    | nil => rw [hl] at hmax; simp [pyMax] at hmax
    | cons x xs =>
      rw [hl] at hmax
      simp only [pyMax, Option.some.injEq] at hmax
      have hx : x ≤ 1 := (hrange x (by rw [hl]; exact List.mem_cons_self x xs)).2
      have hfold : xs.foldl max x ≤ 1 := by
        refine foldl_max_le xs x 1 hx (fun q hq => ?_)
        exact (hrange q (by rw [hl]; exact List.mem_cons_of_mem x hq)).2
      rw [hmax] at hfold
      linarith

/-- C6, witness: a concrete model with probability row [1/2, 9/10] on a
concrete sample yields confidence 90, inside [0, 100]. -/
theorem classify_confidence_bounds_witness :
    classify (Model.mk (fun _ => true) (fun _ => [1/2, 9/10]))
        ⟨7, 22, 0.01, 8, 350⟩ =
      some (true, (9/10 : ℚ) * 100) ∧
    (0 : ℚ) ≤ 9/10 * 100 ∧ (9/10 : ℚ) * 100 ≤ 100 :=
  classify_confidence_bounds (Model.mk (fun _ => true) (fun _ => [1/2, 9/10]))
    ⟨7, 22, 0.01, 8, 350⟩ (9/10)
    (by norm_num [pyMax])
    (by intro q hq; simp only [List.mem_cons, List.not_mem_nil, or_false] at hq
        rcases hq with h | h <;> rw [h] <;> norm_num)

/-- C7: the Status and Health Impact columns of the detail table depend
only on the sample; rendering the same sample with different verdicts and
confidences yields identical columns. -/
theorem table_independent_of_classifier (s : WaterSample) (p1 p2 : Bool)
    (c1 c2 : ℚ) :
    (renderResult s p1 c1).table.statuses = (renderResult s p2 c2).table.statuses ∧
    (renderResult s p1 c1).table.impacts = (renderResult s p2 c2).table.impacts :=
  ⟨rfl, rfl⟩

/-- C8: loading fails exactly when the artifact is missing or corrupt;
handling a submission with a loaded model whose probability row is
nonempty always produces a page; and the cache_resource wrapper runs the
loader on the first call only, later calls returning the cached model. -/
theorem only_load_failure (a : Artifact) (m : Model) (s : WaterSample)
    (hproba : m.predictProba s ≠ []) :
    (isError (load_pipeline a) = true ↔
      (a = Artifact.missing ∨ a = Artifact.corrupt)) ∧
    (handleSubmission m s).isSome = true ∧
    cacheResource (load_pipeline (Artifact.valid m)) none =
      (Except.ok m, some m, true) ∧
    cacheResource (load_pipeline (Artifact.valid m)) (some m) =
      (Except.ok m, some m, false) := by
  refine ⟨?_, ?_, rfl, rfl⟩
  · cases a <;> simp [load_pipeline, isError]
  · obtain ⟨x, xs, hx⟩ := List.exists_cons_of_ne_nil hproba
    simp [handleSubmission, classify, pyMax, hx]

/-- C8, witness: with a missing artifact the load errors, and a concrete
two-class model on a concrete sample is handled without failure, the
loader running only on the first cache access. -/
theorem only_load_failure_witness :
    ((Model.mk (fun _ => true) (fun _ => [1/2, 9/10])).predictProba
        ⟨7, 22, 0.01, 8, 350⟩ ≠ []) ∧
    ((isError (load_pipeline Artifact.missing) = true ↔
        (Artifact.missing = Artifact.missing ∨
          Artifact.missing = Artifact.corrupt)) ∧
      (handleSubmission (Model.mk (fun _ => true) (fun _ => [1/2, 9/10]))
          ⟨7, 22, 0.01, 8, 350⟩).isSome = true ∧
      cacheResource
          (load_pipeline (Artifact.valid
            (Model.mk (fun _ => true) (fun _ => [1/2, 9/10])))) none =
        (Except.ok (Model.mk (fun _ => true) (fun _ => [1/2, 9/10])),
          some (Model.mk (fun _ => true) (fun _ => [1/2, 9/10])), true) ∧
      cacheResource
          (load_pipeline (Artifact.valid
            (Model.mk (fun _ => true) (fun _ => [1/2, 9/10]))))
          (some (Model.mk (fun _ => true) (fun _ => [1/2, 9/10]))) =
        (Except.ok (Model.mk (fun _ => true) (fun _ => [1/2, 9/10])),
          some (Model.mk (fun _ => true) (fun _ => [1/2, 9/10])), false)) :=
  ⟨by simp,
    only_load_failure Artifact.missing
      (Model.mk (fun _ => true) (fun _ => [1/2, 9/10]))
      ⟨7, 22, 0.01, 8, 350⟩ (by simp)⟩

/-- C9: for pH in [4.5, 5.5) the Status column shows the caution-tier
'⚠️ Acidic' while the Health Impact column shows 'Harmful to health',
the impact string of the dangerous branch, because the impact chain's
acidic caution band starts at 5.5 instead of 4.5. -/
theorem acidic_band_status_impact_mismatch (ph : ℚ) (h1 : 4.5 ≤ ph)
    (h2 : ph < 5.5) :
    phStatus ph = "⚠️ Acidic" ∧ tierOf (phStatus ph) = Tier.caution ∧
    phImpact ph = "Harmful to health" := by
  have hs : phStatus ph = "⚠️ Acidic" := by
    unfold phStatus
    split_ifs <;> first | rfl | linarith
  have hi : phImpact ph = "Harmful to health" := by
    unfold phImpact
    split_ifs with g1 g2
    · exact absurd g1.1 (by linarith)
    · rcases g2 with ⟨ga, _⟩ | ⟨gb, _⟩ <;> linarith
    · rfl
  exact ⟨hs, by rw [hs]; simp [tierOf], hi⟩

/-- C9, witness: at pH 5 the status is '⚠️ Acidic' (caution tier) while
the health impact is 'Harmful to health'. -/
theorem acidic_band_status_impact_mismatch_witness :
    (4.5 : ℚ) ≤ 5 ∧ (5 : ℚ) < 5.5 ∧
    (phStatus 5 = "⚠️ Acidic" ∧ tierOf (phStatus 5) = Tier.caution ∧
      phImpact 5 = "Harmful to health") :=
  ⟨by norm_num, by norm_num,
    acidic_band_status_impact_mismatch 5 (by norm_num) (by norm_num)⟩

/-- C10: every pH above 8.5 gets the caution-tier status '⚠️ Alkaline',
and the status '❌ Dangerous' appears exactly for pH below 4.5, so no
alkaline value ever receives the dangerous status. -/
theorem alkaline_never_dangerous (ph q : ℚ) (h : 8.5 < ph) :
    phStatus ph = "⚠️ Alkaline" ∧ tierOf (phStatus ph) = Tier.caution ∧
    (phStatus q = "❌ Dangerous" ↔ q < 4.5) := by
  have hs : phStatus ph = "⚠️ Alkaline" := by
    unfold phStatus
    split_ifs <;> first | rfl | linarith
  refine ⟨hs, by rw [hs]; simp [tierOf], ?_⟩
  unfold phStatus
  split_ifs with g1 g2 g3 <;> simp <;> push_neg at * <;> linarith

/-- C10, witness: pH 14 gets '⚠️ Alkaline' (caution tier), and at pH 3
the dangerous status appears, matching 3 < 4.5. -/
theorem alkaline_never_dangerous_witness :
    (8.5 : ℚ) < 14 ∧
    (phStatus 14 = "⚠️ Alkaline" ∧ tierOf (phStatus 14) = Tier.caution ∧
      (phStatus 3 = "❌ Dangerous" ↔ (3 : ℚ) < 4.5)) :=
  ⟨by norm_num, alkaline_never_dangerous 14 3 (by norm_num)⟩

end AquaSafe
